import Mathlib

/-!
# Verification of the pdf_table_extractor core pipeline

Shallow embedding of `src/pdf_table_extractor/app.py`.

Python strings are modelled as `List Char` (`PyStr`): Python's `str` is a
sequence of characters, and the cell-level operations the pipeline uses
(`split('\n')`, `strip()`, slicing `[:31]`, membership `'\n' in s`) are
character-sequence operations.

External collaborators (langdetect's `detect`, deep_translator's
`GoogleTranslator(...).translate`) are modelled as oracle functions that
either return a value or raise (`Except Unit _`); exception control flow of
the Python `try/except` is made explicit in `translate_text`.
-/

set_option autoImplicit false

namespace PdfTableExtractor

/-- A Python string as a sequence of characters. -/
abbrev PyStr := List Char

/-! ## Python primitives used by the source -/

/-- Helper for `splitNL`: returns the first `'\n'`-free segment of `s`
together with the list of the remaining segments. -/
def splitNLAux : PyStr → PyStr × List PyStr
  | [] => ([], [])
  | c :: rest =>
    let r := splitNLAux rest
    if c = '\n' then ([], r.1 :: r.2) else (c :: r.1, r.2)

/-- Python `s.split('\n')`: split on every newline, keeping empty segments;
the empty string yields `[""]`, never `[]`. -/
def splitNL (s : PyStr) : List PyStr :=
  (splitNLAux s).1 :: (splitNLAux s).2

/-- Python `s.strip()`: remove leading and trailing whitespace. -/
def pyStrip (s : PyStr) : PyStr :=
  ((s.dropWhile Char.isWhitespace).reverse.dropWhile Char.isWhitespace).reverse

/-! ## CellTranslator (`translate_text`, app.py lines 21-30)

The two external services are oracles; `Except.error` models the service
raising an exception, which the Python code catches with a bare `except:`.
Note that the Python code rebinds `text = str(text).strip()` before any
fallible call, so every `return text` after that point returns the trimmed
string. -/

/-- Oracles for the external language-identification and translation
services. `detect` is langdetect's `detect`; `translate target text` is
`GoogleTranslator(source='auto', target=target).translate(text)` (an error
covers both constructor and call failures). -/
structure Oracles where
  detect : PyStr → Except Unit String
  translate : String → PyStr → Except Unit PyStr

/-- Result of one `translate_text` call: the returned string plus how many
times each external service was invoked. -/
structure TransOut where
  result : PyStr
  detectCalls : Nat
  translateCalls : Nat
  deriving DecidableEq

/-- Embedding of `translate_text(text, target_lang)` (app.py lines 21-30):
trim; return the (empty) trimmed text if nothing is left; otherwise detect
the language, and translate only when it differs from the target; any
exception from detection or translation is swallowed and the trimmed text
is returned. -/
def translate_text (o : Oracles) (text : PyStr) (target_lang : String) : TransOut :=
  let text := pyStrip text
  if text.isEmpty then
    { result := text, detectCalls := 0, translateCalls := 0 }
  else
    match o.detect text with
    | Except.error _ => { result := text, detectCalls := 1, translateCalls := 0 }
    | Except.ok lang =>
      if lang ≠ target_lang then
        match o.translate target_lang text with
        | Except.error _ => { result := text, detectCalls := 1, translateCalls := 1 }
        | Except.ok translated => { result := translated, detectCalls := 1, translateCalls := 1 }
      else
        { result := text, detectCalls := 1, translateCalls := 0 }

/-! ## RowExpander (`split_merged_rows`, app.py lines 35-46) -/

/-- Maximum segment count across a row's cells, Python
`max(len(p) for p in parts)` (the guard in `expandRow` guarantees the row
is non-empty there, so the fold's base 0 is never the result). -/
def maxSegs (row : List PyStr) : Nat :=
  (row.map fun c => (splitNL c).length).foldr Nat.max 0

/-- Body of the `for _, row in df.iterrows()` loop of `split_merged_rows`:
the list of rows emitted for one input row. `p.getD i []` is Python's
`p[i] if i < len(p) else ''`. -/
def expandRow (row : List PyStr) : List (List PyStr) :=
  if row.any fun c => c.contains '\n' then
    let parts := row.map splitNL
    (List.range (maxSegs row)).map fun i => parts.map fun p => p.getD i []
  else
    [row]

/-- Embedding of `split_merged_rows(df)` (app.py lines 35-46) on the
underlying grid of the dataframe. -/
def split_merged_rows (g : List (List PyStr)) : List (List PyStr) :=
  (g.map expandRow).flatten

/-! ## TableSerializer (processing loop, app.py lines 117-134) -/

/-- A raw table from the source adapter: camelot's `table.page` and the
string grid `table.df`. -/
structure RawTable where
  page : Nat
  grid : List (List PyStr)

/-- pandas `df.empty`: true iff some axis has length zero.  For the
(rectangular) camelot grid this is: no rows, or rows with no columns. -/
def dfEmpty (g : List (List PyStr)) : Bool :=
  g.isEmpty || g.all List.isEmpty

/-- The f-string `f"Page_{table.page}_Table_{i+1}"` (app.py line 130). -/
def sheet_name_for (page idx : Nat) : PyStr :=
  ("Page_" ++ toString page ++ "_Table_" ++ toString idx).data

/-- Embedding of `format_excel(writer, sheet_name, df)` (app.py lines
48-49): writes the dataframe under the sheet name truncated to 31
characters (`sheet_name[:31]`); the written sheet is modelled as the
(name, grid) pair added to the workbook. -/
def format_excel (nm : PyStr) (df : List (List PyStr)) : PyStr × List (List PyStr) :=
  (nm.take 31, df)

/-- The `for i, table in enumerate(tables)` loop (app.py lines 120-133),
started at index `i`: skip empty tables, otherwise normalize the grid with
`split_merged_rows`, apply the (optional) per-grid translation `tr`, and
write the sheet. Returns the workbook's (name, grid) sheets in order. -/
def buildSheets (tr : List (List PyStr) → List (List PyStr)) :
    Nat → List RawTable → List (PyStr × List (List PyStr))
  | _, [] => []
  | i, t :: rest =>
    if dfEmpty t.grid then
      buildSheets tr (i + 1) rest
    else
      format_excel (sheet_name_for t.page (i + 1)) (tr (split_merged_rows t.grid))
        :: buildSheets tr (i + 1) rest

/-! ## LayoutFormatter (`post_formatting`, app.py lines 51-61) -/

/-- openpyxl `Alignment(wrap_text=True)` replaces the cell's alignment
object wholesale; only the wrap flag matters to the source. -/
structure Alignment where
  wrapText : Bool
  deriving DecidableEq

/-- An openpyxl cell: its value and its alignment. -/
structure Cell where
  value : PyStr
  alignment : Alignment
  deriving DecidableEq

/-- An openpyxl worksheet: the cell grid and the column-dimension widths. -/
structure Worksheet where
  rows : List (List Cell)
  colWidths : List Nat
  deriving DecidableEq

/-- `cell.alignment = Alignment(wrap_text=True)` (app.py line 57). -/
def formatCell (c : Cell) : Cell :=
  { c with alignment := { wrapText := true } }

/-- Number of columns of the worksheet's used range (what `ws.columns`
iterates over). -/
def ncols (ws : Worksheet) : Nat :=
  (ws.rows.map List.length).foldr Nat.max 0

/-- The per-sheet body of `post_formatting`: wrap-text on every cell of
every row, then width 35 on every column of the used range. -/
def formatWs (ws : Worksheet) : Worksheet :=
  { rows := ws.rows.map fun r => r.map formatCell,
    colWidths := List.replicate (ncols ws) 35 }

/-- Embedding of `post_formatting(excel_io, sheet_names)` (app.py lines
51-61): the workbook is the ordered list of named sheets; each sheet whose
name is listed is reformatted in place. -/
def post_formatting (names : List PyStr) (wb : List (PyStr × Worksheet)) :
    List (PyStr × Worksheet) :=
  wb.map fun s => if s.1 ∈ names then (s.1, formatWs s.2) else s

/-! ## Lemmas about `splitNL` -/

theorem splitNLAux_snd_eq_nil_iff (s : PyStr) : (splitNLAux s).2 = [] ↔ '\n' ∉ s := by
  induction s with
  | nil => simp [splitNLAux]
  | cons c rest ih =>
    simp only [splitNLAux]
    by_cases h : c = '\n'
    · subst h; simp
    · simp [h, ih, Ne.symm h]

theorem splitNLAux_of_no_newline {s : PyStr} (h : '\n' ∉ s) : splitNLAux s = (s, []) := by
  induction s with
  | nil => rfl
  | cons c rest ih =>
    simp only [List.mem_cons, not_or] at h
    simp [splitNLAux, Ne.symm h.1, ih h.2]

theorem splitNL_of_no_newline {s : PyStr} (h : '\n' ∉ s) : splitNL s = [s] := by
  simp [splitNL, splitNLAux_of_no_newline h]

theorem splitNL_length_gt_one_iff (s : PyStr) : 1 < (splitNL s).length ↔ '\n' ∈ s := by
  show 1 < (splitNLAux s).2.length + 1 ↔ _
  rw [Nat.succ_lt_succ_iff, List.length_pos, Ne, splitNLAux_snd_eq_nil_iff, not_not]

theorem expandRow_cond_iff (row : List PyStr) :
    (row.any fun c => c.contains '\n') = true ↔ ∃ c ∈ row, 1 < (splitNL c).length := by
  simp only [List.any_eq_true, List.contains, List.elem_iff]
  exact exists_congr fun c => and_congr_right fun _ => (splitNL_length_gt_one_iff c).symm

theorem expandRow_of_multiline {row : List PyStr} (h : ∃ c ∈ row, 1 < (splitNL c).length) :
    expandRow row =
      (List.range (maxSegs row)).map fun i => row.map fun c => (splitNL c).getD i [] := by
  rw [expandRow, if_pos ((expandRow_cond_iff row).mpr h)]
  simp [List.map_map, Function.comp_def]

theorem expandRow_of_single_line {row : List PyStr} (h : ∀ c ∈ row, '\n' ∉ c) :
    expandRow row = [row] := by
  rw [expandRow, if_neg]
  simp only [List.any_eq_true, List.contains, List.elem_iff, not_exists, not_and]
  intro c hc hmem
  exact h c hc hmem

theorem getD_map_range {α : Type} (N i : Nat) (f : Nat → α) (d : α) (h : i < N) :
    ((List.range N).map f).getD i d = f i := by
  rw [List.getD_eq_getElem?_getD]
  simp [List.getElem?_map, List.getElem?_range h]

/-! ## Claim theorems: RowExpander -/

/-- C1: for each row, `split_merged_rows` splits cells on newlines; a row
with a multi-segment cell is expanded into exactly `maxSegs row` sub-rows
whose entry in column `j` of sub-row `i` is segment `i` of cell `j` when it
exists and the empty string otherwise (`(splitNL c).getD i []`); a row with
no newline in any cell is emitted as exactly one unchanged row; and the row
`["X", "A\nB"]` produces exactly `["X", "A"]` and `["", "B"]`. -/
theorem rowExpander_spec (row : List PyStr) :
    ((∃ c ∈ row, 1 < (splitNL c).length) →
      (expandRow row).length = maxSegs row ∧
      ∀ i, i < maxSegs row →
        (expandRow row).getD i [] = row.map fun c => (splitNL c).getD i []) ∧
    ((∀ c ∈ row, '\n' ∉ c) → expandRow row = [row]) ∧
    split_merged_rows [["X".data, "A\nB".data]] = [[['X'], ['A']], [[], ['B']]] := by
  refine ⟨fun h => ?_, expandRow_of_single_line, by decide⟩
  rw [expandRow_of_multiline h]
  exact ⟨by simp, fun i hi => getD_map_range _ _ _ _ hi⟩

/-- Closed instance of `rowExpander_spec` with hypotheses discharged. -/
theorem rowExpander_spec_witness :
    (expandRow ["X".data, "A\nB".data]).length = maxSegs ["X".data, "A\nB".data] ∧
    (expandRow ["X".data, "A\nB".data]).getD 1 [] =
      ["X".data, "A\nB".data].map (fun c => (splitNL c).getD 1 []) ∧
    expandRow ["Y".data] = [["Y".data]] :=
  ⟨((rowExpander_spec ["X".data, "A\nB".data]).1 ⟨"A\nB".data, by decide, by decide⟩).1,
   ((rowExpander_spec ["X".data, "A\nB".data]).1 ⟨"A\nB".data, by decide, by decide⟩).2 1
     (by decide),
   (rowExpander_spec ["Y".data]).2.1 (by decide)⟩

/-- C3: every row emitted by `split_merged_rows` has the column count of
the input row it came from, and each output column `j` is derived from
input column `j` alone (the row is either passed through unchanged, or is
the columnwise map taking segment `i` of each cell). -/
theorem rowExpander_preserves_columns (g : List (List PyStr)) (out : List PyStr)
    (h : out ∈ split_merged_rows g) :
    ∃ row ∈ g, out.length = row.length ∧
      (out = row ∨ ∃ i, out = row.map fun c => (splitNL c).getD i []) := by
  rw [split_merged_rows, List.mem_flatten] at h
  obtain ⟨l, hl, hout⟩ := h
  rw [List.mem_map] at hl
  obtain ⟨row, hrow, rfl⟩ := hl
  refine ⟨row, hrow, ?_⟩
  by_cases hcond : (row.any fun c => c.contains '\n') = true
  · rw [expandRow, if_pos hcond] at hout
    rw [List.mem_map] at hout
    obtain ⟨i, _, rfl⟩ := hout
    rw [List.map_map]
    exact ⟨by simp, Or.inr ⟨i, by simp [Function.comp_def]⟩⟩
  · rw [expandRow, if_neg hcond, List.mem_singleton] at hout
    exact ⟨by rw [hout], Or.inl hout⟩

/-- Closed instance of `rowExpander_preserves_columns` at a concrete grid. -/
theorem rowExpander_preserves_columns_witness :
    ∃ row ∈ [["X".data, "A\nB".data]], ([[], ['B']] : List PyStr).length = row.length ∧
      (([[], ['B']] : List PyStr) = row ∨
        ∃ i, ([[], ['B']] : List PyStr) = row.map fun c => (splitNL c).getD i []) :=
  rowExpander_preserves_columns [["X".data, "A\nB".data]] [[], ['B']] (by decide)

/-! ## Claim theorems: CellTranslator

Concrete oracle instances used to evaluate `translate_text` at concrete
inputs: one where detection always raises, one where detection always
returns `"en"`, and one where detection returns `"fr"` but translation
raises. -/

def oDetectRaises : Oracles :=
  { detect := fun _ => Except.error (), translate := fun _ _ => Except.error () }

def oDetectEn : Oracles :=
  { detect := fun _ => Except.ok "en", translate := fun _ _ => Except.ok ['T'] }

def oTranslateRaises : Oracles :=
  { detect := fun _ => Except.ok "fr", translate := fun _ _ => Except.error () }

theorem pyStrip_nonempty_not_isEmpty {text : PyStr} (h : pyStrip text ≠ []) :
    (pyStrip text).isEmpty = false := by
  cases he : (pyStrip text).isEmpty
  · rfl
  · exact absurd (List.isEmpty_iff.mp he) h

/-- C2 counterexample: on input `" X "` (surrounding whitespace) with a
detector that raises, `translate_text` returns the trimmed `"X"`, not the
original value `" X "` — the claim's "returns the original value
unchanged" fails. -/
theorem translate_text_error_cex :
    oDetectRaises.detect (pyStrip " X ".data) = Except.error () ∧
    (translate_text oDetectRaises " X ".data "en").result ≠ " X ".data ∧
    (translate_text oDetectRaises " X ".data "en").result = pyStrip " X ".data := by
  refine ⟨rfl, ?_, by decide⟩
  decide

/-- C2 (amended): if language identification raises, or identification
returns a language different from the target and the translation provider
then raises, `translate_text` returns the trimmed input; the error is
absorbed (the embedding is a total function, no exception escapes). -/
theorem translate_text_absorbs_errors (o : Oracles) (text : PyStr) (target : String)
    (hcase : o.detect (pyStrip text) = Except.error () ∨
      ∃ lang, o.detect (pyStrip text) = Except.ok lang ∧ lang ≠ target ∧
        o.translate target (pyStrip text) = Except.error ()) :
    (translate_text o text target).result = pyStrip text := by
  rw [translate_text]
  by_cases he : pyStrip text = []
  · simp [he]
  · rw [if_neg (by simp [pyStrip_nonempty_not_isEmpty he])]
    rcases hcase with hdet | ⟨lang, hdet, hne, htr⟩
    · rw [hdet]
    · rw [hdet]
      simp only [ne_eq, hne, not_false_iff, if_true, htr]

/-- Closed instance of `translate_text_absorbs_errors`, exercising the
provider-error branch. -/
theorem translate_text_absorbs_errors_witness :
    (translate_text oTranslateRaises " X ".data "en").result = pyStrip " X ".data :=
  translate_text_absorbs_errors oTranslateRaises " X ".data "en"
    (Or.inr ⟨"fr", rfl, by decide, rfl⟩)

/-- C4 counterexample: on input `" X "` with a detector returning the
target language `"en"`, `translate_text` returns the trimmed `"X"`, not
the original value `" X "` — the claim's "returns the value unchanged"
fails (though no provider call is made). -/
theorem translate_text_skip_cex :
    oDetectEn.detect (pyStrip " X ".data) = Except.ok "en" ∧
    (translate_text oDetectEn " X ".data "en").result ≠ " X ".data ∧
    (translate_text oDetectEn " X ".data "en").translateCalls = 0 := by
  refine ⟨rfl, ?_, by decide⟩
  decide

/-- C4 (amended): if identification succeeds and returns exactly the
target language, `translate_text` returns the trimmed input and makes no
call to the translation provider. -/
theorem translate_text_skips_translation (o : Oracles) (text : PyStr) (target : String)
    (hdet : o.detect (pyStrip text) = Except.ok target) :
    (translate_text o text target).result = pyStrip text ∧
    (translate_text o text target).translateCalls = 0 := by
  rw [translate_text]
  by_cases he : pyStrip text = []
  · simp [he]
  · rw [if_neg (by simp [pyStrip_nonempty_not_isEmpty he]), hdet]
    simp

/-- Closed instance of `translate_text_skips_translation`. -/
theorem translate_text_skips_translation_witness :
    (translate_text oDetectEn " X ".data "en").result = pyStrip " X ".data ∧
    (translate_text oDetectEn " X ".data "en").translateCalls = 0 :=
  translate_text_skips_translation oDetectEn " X ".data "en" rfl

/-- C5 counterexample: on the whitespace-only input `" "` (whose trimmed
form is empty), `translate_text` returns the empty string, not the input
`" "` unchanged — the claim's "returns it unchanged" fails for inputs that
are whitespace but non-empty. -/
theorem translate_text_empty_cex :
    pyStrip " ".data = [] ∧
    (translate_text oDetectRaises " ".data "en").result ≠ " ".data := by
  refine ⟨by decide, ?_⟩
  decide

/-- C5 (amended): on any input whose trimmed form is empty,
`translate_text` returns the trimmed (empty) string and invokes neither
language identification nor the translation provider; in particular
`translate_text "" target = ""` with no calls (`[]` is `""` as a character
sequence). -/
theorem translate_text_empty_input (o : Oracles) (text : PyStr) (target : String)
    (h : pyStrip text = []) :
    translate_text o text target =
      { result := [], detectCalls := 0, translateCalls := 0 } ∧
    translate_text o [] target =
      { result := [], detectCalls := 0, translateCalls := 0 } := by
  constructor
  · rw [translate_text]
    simp [h]
  · rfl

/-- Closed instance of `translate_text_empty_input`. -/
theorem translate_text_empty_input_witness :
    translate_text oDetectRaises " ".data "en" =
      { result := [], detectCalls := 0, translateCalls := 0 } ∧
    translate_text oDetectRaises [] "en" =
      { result := [], detectCalls := 0, translateCalls := 0 } :=
  translate_text_empty_input oDetectRaises " ".data "en" (by decide)

/-- C9: for an input carrying surrounding whitespace whose trimmed form is
non-empty, every return path of `translate_text` that keeps the text
untranslated (identification raised, identified language equal to the
target, or provider raised) returns the trimmed form, which differs from
the original input. -/
theorem translate_text_untranslated_paths_trim (o : Oracles) (text : PyStr) (target : String)
    (hws : pyStrip text ≠ text) (hne : pyStrip text ≠ [])
    (hcase : o.detect (pyStrip text) = Except.error () ∨
      o.detect (pyStrip text) = Except.ok target ∨
      ∃ lang, o.detect (pyStrip text) = Except.ok lang ∧ lang ≠ target ∧
        o.translate target (pyStrip text) = Except.error ()) :
    (translate_text o text target).result = pyStrip text ∧
    (translate_text o text target).result ≠ text := by
  have hres : (translate_text o text target).result = pyStrip text := by
    rw [translate_text, if_neg (by simp [pyStrip_nonempty_not_isEmpty hne])]
    rcases hcase with hdet | hdet | ⟨lang, hdet, hlne, htr⟩
    · rw [hdet]
    · rw [hdet]
      simp
    · rw [hdet]
      simp only [ne_eq, hlne, not_false_iff, if_true, htr]
  exact ⟨hres, hres ▸ hws⟩

/-- Closed instance of `translate_text_untranslated_paths_trim`. -/
theorem translate_text_untranslated_paths_trim_witness :
    (translate_text oDetectRaises "\tX ".data "en").result = pyStrip "\tX ".data ∧
    (translate_text oDetectRaises "\tX ".data "en").result ≠ "\tX ".data :=
  translate_text_untranslated_paths_trim oDetectRaises "\tX ".data "en"
    (by decide) (by decide) (Or.inl rfl)

/-! ## Claim theorems: TableSerializer -/

/-- C6: every sheet name in the workbook is
`Page_<page>_Table_<index>` truncated to at most 31 characters, hence has
length at most 31. -/
theorem sheet_names_truncated (tr : List (List PyStr) → List (List PyStr))
    (i : Nat) (ts : List RawTable) (nm : PyStr) (g : List (List PyStr))
    (h : (nm, g) ∈ buildSheets tr i ts) :
    nm.length ≤ 31 ∧ ∃ p k, nm = (sheet_name_for p k).take 31 := by
  induction ts generalizing i with
  | nil => simp [buildSheets] at h
  | cons t rest ih =>
    rw [buildSheets] at h
    by_cases hemp : dfEmpty t.grid
    · rw [if_pos hemp] at h
      exact ih (i + 1) h
    · rw [if_neg hemp, List.mem_cons] at h
      rcases h with h | h
      · have hnm : nm = (sheet_name_for t.page (i + 1)).take 31 :=
          congrArg Prod.fst h
        refine ⟨?_, t.page, i + 1, hnm⟩
        rw [hnm, List.length_take]
        exact min_le_left _ _
      · exact ih (i + 1) h

/-- Closed instance of `sheet_names_truncated` at a one-table workbook. -/
theorem sheet_names_truncated_witness :
    ("Page_1_Table_1".data).length ≤ 31 ∧
    ∃ p k, "Page_1_Table_1".data = (sheet_name_for p k).take 31 :=
  sheet_names_truncated id 0 [⟨1, [[['a']]]⟩] "Page_1_Table_1".data [[['a']]] (by decide)

/-- C7: a table whose grid has zero data rows is skipped before
serialization — processing it contributes no sheet, and the remaining
tables produce exactly the sheets they would produce with the empty table
still occupying its ordinal position. -/
theorem empty_table_skipped (tr : List (List PyStr) → List (List PyStr))
    (i : Nat) (t : RawTable) (rest : List RawTable) (h : t.grid = []) :
    buildSheets tr i (t :: rest) = buildSheets tr (i + 1) rest := by
  rw [buildSheets, if_pos]
  rw [dfEmpty, h]
  rfl

/-- Closed instance of `empty_table_skipped`. -/
theorem empty_table_skipped_witness :
    buildSheets id 0 [⟨3, []⟩, ⟨3, [[['a']]]⟩] = buildSheets id 1 [⟨3, [[['a']]]⟩] :=
  empty_table_skipped id 0 ⟨3, []⟩ [⟨3, [[['a']]]⟩] rfl

/-- C10: the `<index>` of a sheet name is the table's 1-based position in
the document-wide enumeration of all extracted tables, empty (skipped)
tables included: `buildSheets` equals a filter-map over the enumerated
table list where position `k` names its sheet with index `k + 1`; in
particular an empty table followed by a non-empty one on page 1 yields the
single sheet `Page_1_Table_2`, skipping ordinal 1. -/
theorem sheet_index_document_wide (tr : List (List PyStr) → List (List PyStr))
    (i : Nat) (ts : List RawTable) :
    buildSheets tr i ts = (List.enumFrom i ts).filterMap (fun p =>
      if dfEmpty p.2.grid then none
      else some (format_excel (sheet_name_for p.2.page (p.1 + 1))
        (tr (split_merged_rows p.2.grid)))) ∧
    (buildSheets tr 0 [⟨1, []⟩, ⟨1, [[['a']]]⟩]).map Prod.fst = ["Page_1_Table_2".data] := by
  constructor
  · induction ts generalizing i with
    | nil => rfl
    | cons t rest ih =>
      rw [buildSheets, List.enumFrom_cons, List.filterMap_cons]
      by_cases hemp : dfEmpty t.grid
      · rw [if_pos hemp, if_pos hemp, ih]
      · rw [if_neg hemp, if_neg hemp, ih]
  · rw [show buildSheets tr 0 [⟨1, []⟩, ⟨1, [[['a']]]⟩]
        = [format_excel (sheet_name_for 1 2) (tr (split_merged_rows [[['a']]]))] from rfl]
    rfl

/-! ## Claim theorems: LayoutFormatter -/

theorem formatCell_idem (c : Cell) : formatCell (formatCell c) = formatCell c := rfl

theorem ncols_formatWs (ws : Worksheet) : ncols (formatWs ws) = ncols ws := by
  rw [ncols, ncols, formatWs]
  simp [List.map_map, Function.comp_def]

theorem formatWs_idem (ws : Worksheet) : formatWs (formatWs ws) = formatWs ws := by
  rw [formatWs, formatWs]
  refine congrArg₂ Worksheet.mk ?_ ?_
  · show (ws.rows.map fun r => r.map formatCell).map (fun r => r.map formatCell) = _
    simp [List.map_map, Function.comp_def, formatCell_idem]
  · exact congrArg (List.replicate · 35) (ncols_formatWs ws)

/-- C8: `post_formatting` is idempotent — applying the cosmetic pass
(wrap-text on every cell, fixed width 35 on every column of every listed
sheet) twice yields the same workbook as applying it once. -/
theorem post_formatting_idempotent (names : List PyStr) (wb : List (PyStr × Worksheet)) :
    post_formatting names (post_formatting names wb) = post_formatting names wb := by
  simp only [post_formatting]
  rw [List.map_map]
  refine List.map_congr_left fun s _ => ?_
  by_cases hmem : s.1 ∈ names
  · simp [Function.comp_def, hmem, formatWs_idem]
  · simp [Function.comp_def, hmem]

end PdfTableExtractor
